import Mathlib

/-!
Shallow embedding of the hot_crate library (src/lib.rs): a manager that loads a
build artifact of a dylib crate, tracks its modification timestamp, and reloads it
through a staged copy at a counter-derived temporary path.

The filesystem, the cargo-metadata provider, the dynamic loader and the external
install_name_tool subprocess are modelled as an explicit `Os` state; machine
handles are natural numbers; fallible operations return `Except Err` and the
public reload operations return an `Outcome` that also distinguishes a panic.
-/

/-- A cargo target: its name and declared crate types (`Target` in cargo_metadata). -/
structure Target where
  name : String
  crate_types : List String
  deriving DecidableEq, Repr

/-- A cargo package: name, manifest path and targets (`Package` in cargo_metadata). -/
structure Package where
  name : String
  manifest_path : String
  targets : List Target
  deriving DecidableEq, Repr

/-- Workspace metadata: the package list and the build-output directory
(`Metadata` in cargo_metadata). -/
structure Metadata where
  packages : List Package
  target_directory : String
  deriving DecidableEq, Repr

/-- The distinguishable error sources boxed into `Box<dyn Error>` by the source. -/
inductive Err where
  | ioError
  | targetNotFound
  | notADynamicLibrary
  | loadFailed
  | utf8
  | symbolNotFound
  | invalidHandle
  deriving DecidableEq, Repr

/-- Result of a public reload operation: success, a propagated error, or a panic
(a panic aborts the process and is never returned as a Rust `Err`). -/
inductive Outcome (α : Type) where
  | ok : α → Outcome α
  | err : Err → Outcome α
  | panic : String → Outcome α
  deriving DecidableEq, Repr

/-- A file on disk: its modification time (`none` when `modified()` is
unavailable), whether the loader accepts it, and its exported symbols. -/
structure File where
  modified : Option Nat
  openable : Bool
  symbols : List String
  deriving DecidableEq, Repr

/-- An open dynamic-library handle tracked by the OS: its identity, the path it
was opened from, and the symbol table snapshot taken at open time. -/
structure HandleInfo where
  id : Nat
  path : String
  symbols : List String
  deriving DecidableEq, Repr

/-- Observable side effects on the world (only mutations are recorded). -/
inductive Ev where
  | mkdir : String → Ev
  | copy : String → String → Ev
  | tool : String → Ev
  | openOk : Nat → String → Ev
  | close : Nat → Ev
  deriving DecidableEq, Repr

/-- The world the program runs against: files, path canonicalization, failure
oracles for mkdir/copy, the cargo-metadata provider, the temp directory, the
install_name_tool subprocess behaviour, and the open dynamic-library handles. -/
structure Os where
  files : String → Option File
  canonical : String → Option String
  mkdirOk : String → Bool
  copyFails : String → String → Bool
  cargoMetadata : String → Option Metadata
  tempDir : Option String
  toolSpawns : Bool
  toolExit : Nat
  nextHandle : Nat
  openHandles : List HandleInfo

/-- Compile-time configuration baked into the binary: the `DYLIB_EXTENSION`
constant, `cfg!(debug_assertions)` and `cfg!(target_os = "macos")`. -/
structure Cfg where
  ext : String
  debug_assertions : Bool
  macos : Bool
  deriving DecidableEq, Repr

/-- The `HotCrate` struct: metadata snapshot, dylib manifest path, the active
library handle, the artifact path, its last-seen timestamp, and the reload
counter. -/
structure HotCrate where
  main_metadata : Metadata
  dylib_toml : String
  lib : Nat
  lib_path : String
  lib_timestamp : Option Nat
  reload_counter : Nat
  deriving DecidableEq, Repr

/-- The cfg-attribute selection of the `DYLIB_EXTENSION` constant, read off the
three cfg target_os items of the source verbatim (the third matches the
literal string the source spells).  `none` means no constant is defined for that
target OS, so the crate does not compile there. -/
def DYLIB_EXTENSION (target_os : String) : Option String :=
  if target_os = "macos" then some ("dylib")
  else if target_os = "linux" then some ("so")
  else if target_os = "window" then some ("dll")
  else none

/-- Characters of a path before its final slash (helper for `parentDir`). -/
def chopLast : List Char → List Char
  | [] => []
  | ch :: rest => if rest.contains '/' then ch :: chopLast rest else []

/-- Models Utf8Path::parent: the path with its last component removed. -/
def parentDir (p : String) : String :=
  (chopLast p.data).asString

/-- Models fs::metadata(p)?.modified().ok(): errors when the metadata of the
file is unreadable, otherwise yields the (possibly unavailable) mtime. -/
def fsModified (p : String) (os : Os) : Except Err (Option Nat) :=
  match os.files p with
  | none => .error .ioError
  | some f => .ok f.modified

/-- Models fs::create_dir_all: succeeds or fails according to the OS oracle. -/
def create_dir_all (p : String) (os : Os) : Except Err Unit × List Ev :=
  if os.mkdirOk p then (.ok (), [Ev.mkdir p]) else (.error .ioError, [])

/-- Models fs::copy src dst: fails when the oracle says so or the source is
missing; on success the destination now holds the file of the source. -/
def fsCopy (src dst : String) (os : Os) : Except Err Unit × Os × List Ev :=
  if os.copyFails src dst then (.error .ioError, os, [])
  else
    match os.files src with
    | none => (.error .ioError, os, [])
    | some f =>
      (.ok (), { os with files := fun q => if q = dst then some f else os.files q },
       [Ev.copy src dst])

/-- Models Library::new(p): fails when the file is missing or the loader
rejects it; on success a fresh handle is opened on the current symbol table
of the file. -/
def Library.new (p : String) (os : Os) : Except Err Nat × Os × List Ev :=
  match os.files p with
  | none => (.error .loadFailed, os, [])
  | some f =>
    if f.openable then
      (.ok os.nextHandle,
       { os with
           nextHandle := os.nextHandle + 1,
           openHandles :=
             { id := os.nextHandle, path := p, symbols := f.symbols } :: os.openHandles },
       [Ev.openOk os.nextHandle p])
    else (.error .loadFailed, os, [])

/-- Dropping/closing a `Library`: the handle is removed from the open set. -/
def Library.close (h : Nat) (os : Os) : Os × List Ev :=
  ({ os with openHandles := os.openHandles.filter (fun e => e.id != h) }, [Ev.close h])

/-- Models HotCrate::get: symbol lookup on the currently active handle. -/
def HotCrate.get (s : HotCrate) (os : Os) (symbol : String) : Except Err Unit :=
  match os.openHandles.find? (fun e => e.id == s.lib) with
  | none => .error .invalidHandle
  | some info => if info.symbols.contains symbol then .ok () else .error .symbolNotFound

/-- Models find_dylib_pkg: canonicalize the dylib manifest path, then find
the package with that manifest path. -/
def find_dylib_pkg (md : Metadata) (dylib_toml : String) (os : Os) : Except Err Package :=
  match os.canonical dylib_toml with
  | none => .error .ioError
  | some ct =>
    match md.packages.find? (fun pkg => pkg.manifest_path == ct) with
    | none => .error .targetNotFound
    | some pkg => .ok pkg

/-- Models find_dylib_target: within the dylib package, find a target
declaring the dylib crate type. -/
def find_dylib_target (md : Metadata) (dylib_toml : String) (os : Os) : Except Err Target :=
  match find_dylib_pkg md dylib_toml os with
  | .error e => .error e
  | .ok pkg =>
    match pkg.targets.find? (fun t => t.crate_types.any (fun ty => ty == "dylib")) with
    | none => .error .notADynamicLibrary
    | some t => .ok t

/-- Models find_dylib_path: the target directory joined with the build
profile (debug or release) and the file name lib<target>.<ext>. -/
def find_dylib_path (c : Cfg) (md : Metadata) (dylib_toml : String) (os : Os) :
    Except Err String :=
  match find_dylib_target md dylib_toml os with
  | .error e => .error e
  | .ok target =>
    let debug_or_release := if c.debug_assertions then "debug" else "release"
    .ok (md.target_directory ++ ("/") ++ debug_or_release ++ ("/lib")
          ++ target.name ++ (".") ++ c.ext)

/-- Models HotCrate::tmp_dylib_path: computes the staging path
TMP_DIR/hot_crate/<pkg>/lib<target>-<counter>.<ext> and increments the
reload counter. -/
def tmp_dylib_path (c : Cfg) (s : HotCrate) (os : Os) : Except Err (String × HotCrate) :=
  match find_dylib_pkg s.main_metadata s.dylib_toml os with
  | .error e => .error e
  | .ok pkg =>
  match find_dylib_target s.main_metadata s.dylib_toml os with
  | .error e => .error e
  | .ok target =>
  match os.tempDir with
  | none => .error .utf8
  | some tmpRoot =>
    let tmp :=
      tmpRoot ++ ("/hot_crate/") ++ pkg.name ++ ("/lib") ++ target.name ++ ("-")
        ++ Nat.repr s.reload_counter ++ (".") ++ c.ext
    .ok (tmp, { s with reload_counter := s.reload_counter + 1 })

/-- Result of a mutating `HotCrate` operation: the outcome, the manager state
after the call, the OS state after the call, and the recorded effects. -/
structure Step (α : Type) where
  res : α
  hc : HotCrate
  os : Os
  tr : List Ev

/-- Models HotCrate::force_reload: resolve the artifact, compute a fresh staging
path (incrementing the counter), mkdir + copy the artifact there, on macOS run
install_name_tool (panicking if it fails to spawn, ignoring its exit status),
open the staged copy, and only then replace and drop the old handle, storing the
artifact path and its fresh timestamp. -/
def force_reload (c : Cfg) (s : HotCrate) (os : Os) : Step (Outcome Unit) :=
  match find_dylib_pkg s.main_metadata s.dylib_toml os with
  | .error e => ⟨.err e, s, os, []⟩
  | .ok _ =>
  match find_dylib_path c s.main_metadata s.dylib_toml os with
  | .error e => ⟨.err e, s, os, []⟩
  | .ok dylib_path =>
  match tmp_dylib_path c s os with
  | .error e => ⟨.err e, s, os, []⟩
  | .ok (tmp, s1) =>
  let tmp_dir := parentDir tmp
  match create_dir_all tmp_dir os with
  | (.error e, t1) => ⟨.err e, s1, os, t1⟩
  | (.ok _, t1) =>
  match fsCopy dylib_path tmp os with
  | (.error e, os2, t2) => ⟨.err e, s1, os2, t1 ++ t2⟩
  | (.ok _, os2, t2) =>
  if c.macos && !os.toolSpawns then
    ⟨.panic ("install_name_tool failed to start"), s1, os2, t1 ++ t2⟩
  else
    let t3 := if c.macos then [Ev.tool tmp] else []
    match Library.new tmp os2 with
    | (.error e, os3, t4) => ⟨.err e, s1, os3, t1 ++ t2 ++ t3 ++ t4⟩
    | (.ok h, os3, t4) =>
      let (os4, t5) := Library.close s.lib os3
      let s2 := { s1 with lib := h, lib_path := dylib_path }
      match fsModified dylib_path os4 with
      | .error e => ⟨.err e, s2, os4, t1 ++ t2 ++ t3 ++ t4 ++ t5⟩
      | .ok ts => ⟨.ok (), { s2 with lib_timestamp := ts }, os4, t1 ++ t2 ++ t3 ++ t4 ++ t5⟩

/-- Models HotCrate::try_reload: read the timestamp of the artifact (propagating a
metadata-read failure); if it equals the stored baseline return `false`,
otherwise run `force_reload` and return `true` on success. -/
def try_reload (c : Cfg) (s : HotCrate) (os : Os) : Step (Outcome Bool) :=
  match fsModified s.lib_path os with
  | .error e => ⟨.err e, s, os, []⟩
  | .ok timestamp =>
    if timestamp = s.lib_timestamp then ⟨.ok false, s, os, []⟩
    else
      let r := force_reload c s os
      match r.res with
      | .ok _ => ⟨.ok true, r.hc, r.os, r.tr⟩
      | .err e => ⟨.err e, r.hc, r.os, r.tr⟩
      | .panic m => ⟨.panic m, r.hc, r.os, r.tr⟩

/-- Result of `HotCrate::load`: the constructed manager or the error, plus the
OS state and recorded effects. -/
structure LoadOut where
  res : Except Err HotCrate
  os : Os
  tr : List Ev

/-- Models HotCrate::load: run cargo metadata, resolve the artifact path, open it,
read its timestamp, and produce the manager with reload counter zero; any
failure aborts without producing a manager (a handle opened before a later
failure is dropped). -/
def load (c : Cfg) (main_toml dylib_toml : String) (os : Os) : LoadOut :=
  match os.cargoMetadata main_toml with
  | none => ⟨.error .ioError, os, []⟩
  | some main_metadata =>
  match find_dylib_path c main_metadata dylib_toml os with
  | .error e => ⟨.error e, os, []⟩
  | .ok lib_path =>
  match Library.new lib_path os with
  | (.error e, os1, t1) => ⟨.error e, os1, t1⟩
  | (.ok lib, os1, t1) =>
  match fsModified lib_path os1 with
  | .error e =>
    let (os2, t2) := Library.close lib os1
    ⟨.error e, os2, t1 ++ t2⟩
  | .ok lib_timestamp =>
    ⟨.ok { main_metadata := main_metadata, dylib_toml := dylib_toml, lib := lib,
           lib_path := lib_path, lib_timestamp := lib_timestamp, reload_counter := 0 },
     os1, t1⟩

/-- Models HotCrate::unload: close the active handle. -/
def HotCrate.unload (s : HotCrate) (os : Os) : Os × List Ev :=
  Library.close s.lib os

/-- Iterated `try_reload`: the list of outcomes, the final manager and OS
states, and the accumulated effects of `n` successive calls. -/
def try_reload_iter (c : Cfg) : Nat → HotCrate → Os →
    List (Outcome Bool) × HotCrate × Os × List Ev
  | 0, s, os => ([], s, os, [])
  | n + 1, s, os =>
    let r := try_reload c s os
    let rest := try_reload_iter c n r.hc r.os
    (r.res :: rest.1, rest.2.1, rest.2.2.1, r.tr ++ rest.2.2.2)

/-- Numeric value of a decimal digit character (inverse of `Nat.digitChar` below 10). -/
def charVal (ch : Char) : Nat :=
  if ch = '1' then 1 else if ch = '2' then 2 else if ch = '3' then 3 else
  if ch = '4' then 4 else if ch = '5' then 5 else if ch = '6' then 6 else
  if ch = '7' then 7 else if ch = '8' then 8 else if ch = '9' then 9 else 0

/-- Value of a decimal digit string, most significant first. -/
def decVal (l : List Char) : Nat := l.foldl (fun a ch => 10 * a + charVal ch) 0

deriving instance DecidableEq for Except

/-- Test fixture: the dylib package of the workspace. -/
def pkgW : Package :=
  { name := "plug", manifest_path := "P",
    targets := [{ name := "plug", crate_types := ["dylib"] }] }

/-- Test fixture: workspace metadata with one dylib package. -/
def mdW : Metadata := { packages := [pkgW], target_directory := "T" }

/-- Test fixture: the resolved artifact path for `mdW` in a debug build. -/
def artW : String := "T/debug/libplug.dylib"

/-- Test fixture: a non-macOS debug configuration with extension dylib. -/
def cW : Cfg := { ext := "dylib", debug_assertions := true, macos := false }

/-- Test fixture: a macOS debug configuration. -/
def cM : Cfg := { ext := "dylib", debug_assertions := true, macos := true }

/-- Test fixture: the artifact file on disk. -/
def fileW : File := { modified := some 5, openable := true, symbols := ["sym"] }

/-- Test fixture: a healthy world with the artifact present and handle 0 open. -/
def osW : Os :=
  { files := fun p => if p = artW then some fileW else none,
    canonical := fun p => some p,
    mkdirOk := fun _ => true,
    copyFails := fun _ _ => false,
    cargoMetadata := fun _ => some mdW,
    tempDir := some "TMP",
    toolSpawns := true,
    toolExit := 3,
    nextHandle := 1,
    openHandles := [{ id := 0, path := artW, symbols := ["sym"] }] }

/-- Test fixture: a manager freshly loaded against `artW`. -/
def sW : HotCrate :=
  { main_metadata := mdW, dylib_toml := "P", lib := 0, lib_path := artW,
    lib_timestamp := some 5, reload_counter := 0 }

/-- Test fixture: the world after the artifact file vanished (copy fails). -/
def osFail : Os := { osW with files := fun _ => none }

/-- Test fixture: macOS world where install_name_tool cannot be spawned. -/
def osNoSpawn : Os := { osW with toolSpawns := false }

/-- Test fixture: a package that matches but declares no dylib target. -/
def pkgND : Package :=
  { name := "plug", manifest_path := "Q",
    targets := [{ name := "plug", crate_types := ["rlib"] }] }

/-- Test fixture: metadata whose only package has no dylib target. -/
def mdND : Metadata := { packages := [pkgND], target_directory := "T" }

/-- Test fixture: world serving `mdND` as the workspace metadata. -/
def osND : Os := { osW with cargoMetadata := fun _ => some mdND }

/-- Test fixture: an artifact file whose modification time is unavailable. -/
def fileN : File := { modified := none, openable := true, symbols := ["sym"] }

/-- Test fixture: world where the artifact exists but has no readable mtime. -/
def osN : Os := { osW with files := fun p => if p = artW then some fileN else none }

/-- Test fixture: a manager whose timestamp baseline is unavailable. -/
def sN : HotCrate := { sW with lib_timestamp := none }

/-- Test fixture: a manager whose stored library path no longer exists. -/
def sBad : HotCrate := { sW with lib_path := "gone" }

lemma tmp_spec (c : Cfg) (s : HotCrate) (os : Os) (p : String) (s1 : HotCrate)
    (h : tmp_dylib_path c s os = .ok (p, s1)) :
    ∃ pkg target tmpRoot,
      find_dylib_pkg s.main_metadata s.dylib_toml os = .ok pkg ∧
      find_dylib_target s.main_metadata s.dylib_toml os = .ok target ∧
      os.tempDir = some tmpRoot ∧
      p = tmpRoot ++ ("/hot_crate/") ++ pkg.name ++ ("/lib") ++ target.name ++ ("-")
            ++ Nat.repr s.reload_counter ++ (".") ++ c.ext ∧
      s1 = { s with reload_counter := s.reload_counter + 1 } := by
  unfold tmp_dylib_path at h
  split at h
  · simp at h
  next pkg hpkg =>
    split at h
    · simp at h
    next target htarget =>
      split at h
      · simp at h
      next tmpRoot hroot =>
        simp only [Except.ok.injEq, Prod.mk.injEq] at h
        obtain ⟨h1, h2⟩ := h
        exact ⟨pkg, target, tmpRoot, hpkg, htarget, hroot, h1.symm, h2.symm⟩

lemma force_reload_err_state (c : Cfg) (s : HotCrate) (os : Os) (e : Err)
    (res : Outcome Unit) (hc : HotCrate) (os2 : Os) (tr : List Ev)
    (hfr : force_reload c s os = ⟨res, hc, os2, tr⟩) (h : res = .err e) :
    hc.lib = s.lib ∧ hc.lib_path = s.lib_path ∧ hc.lib_timestamp = s.lib_timestamp ∧
    os2.openHandles = os.openHandles ∧
    (∀ hq, Ev.close hq ∉ tr) ∧ (∀ hq pq, Ev.openOk hq pq ∉ tr) := by
  unfold force_reload at hfr
  split at hfr
  next e1 heq1 =>
    cases hfr; simp
  next pkg hpkg =>
  split at hfr
  next e1 heq1 =>
    cases hfr; simp
  next dp hdp =>
  split at hfr
  next e1 heq1 =>
    cases hfr; simp
  next tmp s1 htmp =>
  dsimp only at hfr
  obtain ⟨_, _, _, _, _, _, _, h5⟩ := tmp_spec c s os tmp s1 htmp
  subst h5
  split at hfr
  next e1 t1 hmk =>
    cases hfr
    unfold create_dir_all at hmk
    split at hmk
    · simp at hmk
    · simp only [Prod.mk.injEq] at hmk
      obtain ⟨_, ht1⟩ := hmk
      simp [← ht1]
  next u t1 hmk =>
  have ht1 : t1 = [Ev.mkdir (parentDir tmp)] := by
    unfold create_dir_all at hmk
    split at hmk
    · simp only [Prod.mk.injEq] at hmk; exact hmk.2.symm
    · simp at hmk
  subst ht1
  split at hfr
  next e1 os2a t2 hcp =>
    cases hfr
    unfold fsCopy at hcp
    split at hcp
    · simp only [Prod.mk.injEq] at hcp
      obtain ⟨_, hos2, ht2⟩ := hcp
      subst hos2
      simp [← ht2]
    · split at hcp
      · simp only [Prod.mk.injEq] at hcp
        obtain ⟨_, hos2, ht2⟩ := hcp
        subst hos2
        simp [← ht2]
      · simp at hcp
  next u2 os2a t2 hcp =>
  obtain ⟨f, hfile, hnotfail, hos2a, ht2⟩ :
      ∃ f, os.files dp = some f ∧ os.copyFails dp tmp = false ∧
        os2a = { os with files := fun q => if q = tmp then some f else os.files q } ∧
        t2 = [Ev.copy dp tmp] := by
    unfold fsCopy at hcp
    split at hcp
    · simp at hcp
    · split at hcp
      · simp at hcp
      next f hf =>
        simp only [Prod.mk.injEq] at hcp
        obtain ⟨_, hos2, ht2⟩ := hcp
        exact ⟨f, hf, by simp_all, hos2.symm, ht2.symm⟩
  subst hos2a; subst ht2
  split at hfr
  · -- panic branch contradicts res = .err e
    cases hfr; simp at h
  dsimp only at hfr
  split at hfr
  next e1 os3 t4 hnew =>
    cases hfr
    unfold Library.new at hnew
    split at hnew
    · simp only [Prod.mk.injEq] at hnew
      obtain ⟨_, hos3, ht4⟩ := hnew
      subst hos3
      subst ht4
      refine ⟨by rfl, by rfl, by rfl, by rfl, ?_, ?_⟩
      · intro hq
        by_cases hm : c.macos = true <;> simp [hm]
      · intro hq pq
        by_cases hm : c.macos = true <;> simp [hm]
    next f2 hf2 =>
      split at hnew
      · simp at hnew
      · simp only [Prod.mk.injEq] at hnew
        obtain ⟨_, hos3, ht4⟩ := hnew
        subst hos3
        subst ht4
        refine ⟨by rfl, by rfl, by rfl, by rfl, ?_, ?_⟩
        · intro hq
          by_cases hm : c.macos = true <;> simp [hm]
        · intro hq pq
          by_cases hm : c.macos = true <;> simp [hm]
  next hnd os3 t4 hnew =>
  try dsimp only at hfr
  split at hfr
  next e1 hstat =>
    -- dead branch: after a successful copy the artifact metadata is readable
    exfalso
    unfold Library.new at hnew
    unfold fsModified at hstat
    split at hnew
    next hnone =>
      simp at hnone
    next f2 hf2 =>
      split at hnew
      · simp only [Prod.mk.injEq] at hnew
        obtain ⟨_, hos3, ht4⟩ := hnew
        subst hos3
        simp only [Library.close] at hstat
        by_cases hdt : dp = tmp <;> simp [hdt, hfile] at hstat
      · simp at hnew
  next ts hstat =>
    cases hfr; simp at h

lemma force_reload_ok_state (c : Cfg) (s : HotCrate) (os : Os)
    (res : Outcome Unit) (hc : HotCrate) (os2 : Os) (tr : List Ev)
    (hfr : force_reload c s os = ⟨res, hc, os2, tr⟩) (h : res = .ok ()) :
    ∃ dp p fArt,
      find_dylib_path c s.main_metadata s.dylib_toml os = .ok dp ∧
      tmp_dylib_path c s os = .ok (p, { s with reload_counter := s.reload_counter + 1 }) ∧
      os.files dp = some fArt ∧
      hc = { s with
             reload_counter := s.reload_counter + 1, lib := os.nextHandle,
             lib_path := dp, lib_timestamp := fArt.modified } ∧
      os2.openHandles =
        ({ id := os.nextHandle, path := p, symbols := fArt.symbols } :: os.openHandles).filter
          (fun x => x.id != s.lib) ∧
      tr = ([Ev.mkdir (parentDir p)] ++ [Ev.copy dp p]
              ++ (if c.macos = true then [Ev.tool p] else []))
             ++ [Ev.openOk os.nextHandle p] ++ [Ev.close s.lib] := by
  unfold force_reload at hfr
  split at hfr
  next e1 heq1 => cases hfr; simp at h
  next pkg hpkg =>
  split at hfr
  next e1 heq1 => cases hfr; simp at h
  next dp hdp =>
  split at hfr
  next e1 heq1 => cases hfr; simp at h
  next tmp s1 htmp =>
  dsimp only at hfr
  obtain ⟨_, _, _, _, _, _, _, h5⟩ := tmp_spec c s os tmp s1 htmp
  subst h5
  split at hfr
  next e1 t1 hmk => cases hfr; simp at h
  next u t1 hmk =>
  split at hfr
  next e1 os2a t2 hcp => cases hfr; simp at h
  next u2 os2a t2 hcp =>
  obtain ⟨f, hfile, hnotfail, hos2a, ht2⟩ :
      ∃ f, os.files dp = some f ∧ os.copyFails dp tmp = false ∧
        os2a = { os with files := fun q => if q = tmp then some f else os.files q } ∧
        t2 = [Ev.copy dp tmp] := by
    unfold fsCopy at hcp
    split at hcp
    · simp at hcp
    · split at hcp
      · simp at hcp
      next f hf =>
        simp only [Prod.mk.injEq] at hcp
        obtain ⟨_, hos2, ht2⟩ := hcp
        exact ⟨f, hf, by simp_all, hos2.symm, ht2.symm⟩
  subst hos2a; subst ht2
  have ht1 : t1 = [Ev.mkdir (parentDir tmp)] := by
    unfold create_dir_all at hmk
    split at hmk
    · simp only [Prod.mk.injEq] at hmk; exact hmk.2.symm
    · simp at hmk
  subst ht1
  split at hfr
  · cases hfr; simp at h
  try dsimp only at hfr
  split at hfr
  next e1 os3 t4 hnew => cases hfr; simp at h
  next hnd os3 t4 hnew =>
  obtain ⟨hhnd, hos3, ht4⟩ :
      hnd = os.nextHandle ∧
      os3 = { os with
                files := fun q => if q = tmp then some f else os.files q,
                nextHandle := os.nextHandle + 1,
                openHandles :=
                  { id := os.nextHandle, path := tmp, symbols := f.symbols }
                    :: os.openHandles } ∧
      t4 = [Ev.openOk os.nextHandle tmp] := by
    unfold Library.new at hnew
    split at hnew
    next hnone => simp at hnone
    next f2 hf2 =>
      obtain rfl : f = f2 := by
        have hx := hf2
        simp at hx
        exact hx
      split at hnew
      · simp only [Prod.mk.injEq, Except.ok.injEq] at hnew
        exact ⟨hnew.1.symm, hnew.2.1.symm, hnew.2.2.symm⟩
      · simp at hnew
  subst hhnd; subst hos3; subst ht4
  try dsimp only at hfr
  split at hfr
  next e1 hstat =>
    exfalso
    unfold fsModified at hstat
    simp only [Library.close] at hstat
    by_cases hdt : dp = tmp <;> simp [hdt, hfile] at hstat
  next ts hstat =>
  have hts : ts = f.modified := by
    unfold fsModified at hstat
    simp only [Library.close] at hstat
    by_cases hdt : dp = tmp
    · simp [hdt] at hstat
      exact hstat.symm
    · simp [hdt, hfile] at hstat
      exact hstat.symm
  subst hts
  cases hfr
  refine ⟨dp, tmp, f, hdp, htmp, hfile, ?_, ?_, ?_⟩
  · rfl
  · simp only [Library.close]
  · rfl

lemma force_reload_counter_state (c : Cfg) (s : HotCrate) (os : Os)
    (res : Outcome Unit) (hc : HotCrate) (os2 : Os) (tr : List Ev)
    (hfr : force_reload c s os = ⟨res, hc, os2, tr⟩) :
    ((∃ e, tmp_dylib_path c s os = .error e) → hc = s ∧ ∃ e, res = .err e) ∧
    (∀ p s1, tmp_dylib_path c s os = .ok (p, s1) →
      hc.reload_counter = s.reload_counter + 1) := by
  unfold force_reload at hfr
  split at hfr
  next e1 heq1 =>
    cases hfr
    constructor
    · intro _; exact ⟨rfl, e1, rfl⟩
    · intro p s1 htmp
      exfalso
      unfold tmp_dylib_path at htmp
      rw [heq1] at htmp
      simp at htmp
  next pkg hpkg =>
  split at hfr
  next e1 heq1 =>
    cases hfr
    constructor
    · intro _; exact ⟨rfl, e1, rfl⟩
    · intro p s1 htmp
      exfalso
      obtain ⟨_, tgt, _, _, htgt, _, _, _⟩ := tmp_spec c s os p s1 htmp
      unfold find_dylib_path at heq1
      rw [htgt] at heq1
      simp at heq1
  next dp hdp =>
  split at hfr
  next e1 heq1 =>
    cases hfr
    constructor
    · intro _; exact ⟨rfl, e1, rfl⟩
    · intro p s1 htmp
      rw [heq1] at htmp
      simp at htmp
  next tmp s1 htmp =>
  dsimp only at hfr
  obtain ⟨_, _, _, _, _, _, _, h5⟩ := tmp_spec c s os tmp s1 htmp
  subst h5
  have hcnt : ∀ hcx : HotCrate, hcx.reload_counter = s.reload_counter + 1 →
      ((∃ e, tmp_dylib_path c s os = .error e) → hcx = s ∧ ∃ e, res = .err e) ∧
      (∀ p s1x, tmp_dylib_path c s os = .ok (p, s1x) →
        hcx.reload_counter = s.reload_counter + 1) := by
    intro hcx hx
    constructor
    · intro ⟨e, he⟩; rw [he] at htmp; simp at htmp
    · intro p s1x _; exact hx
  split at hfr
  next e1 t1 hmk =>
    cases hfr; exact hcnt _ rfl
  next u t1 hmk =>
  split at hfr
  next e1 os2a t2 hcp =>
    cases hfr; exact hcnt _ rfl
  next u2 os2a t2 hcp =>
  split at hfr
  · cases hfr; exact hcnt _ rfl
  try dsimp only at hfr
  split at hfr
  next e1 os3 t4 hnew =>
    cases hfr; exact hcnt _ rfl
  next hnd os3 t4 hnew =>
  try dsimp only at hfr
  split at hfr
  next e1 hstat =>
    cases hfr; exact hcnt _ rfl
  next ts hstat =>
    cases hfr; exact hcnt _ rfl

lemma force_reload_path_outcome (c : Cfg) (s : HotCrate) (os : Os)
    (p dp : String) (s1 : HotCrate) (fArt : File)
    (htmp : tmp_dylib_path c s os = .ok (p, s1))
    (hdp : find_dylib_path c s.main_metadata s.dylib_toml os = .ok dp)
    (hmk : os.mkdirOk (parentDir p) = true)
    (hcf : os.copyFails dp p = false)
    (hfile : os.files dp = some fArt)
    (hopen : fArt.openable = true) :
    ((c.macos = false ∨ os.toolSpawns = true) → (force_reload c s os).res = .ok ()) ∧
    (c.macos = true → os.toolSpawns = false →
      (force_reload c s os).res = .panic ("install_name_tool failed to start") ∧
      ∀ hq pq, Ev.openOk hq pq ∉ (force_reload c s os).tr) := by
  obtain ⟨pkg, tgt, tmpRoot, hpkg, htgt, _, _, _⟩ := tmp_spec c s os p s1 htmp
  constructor
  · intro hcase
    have hcond : (c.macos && !os.toolSpawns) = false := by
      rcases hcase with h1 | h1 <;> simp [h1]
    by_cases hdt : dp = p
    · subst hdt
      simp [force_reload, create_dir_all, fsCopy, Library.new, fsModified, Library.close,
            hpkg, hdp, htmp, hmk, hcf, hfile, hcond, hopen]
    · simp [force_reload, create_dir_all, fsCopy, Library.new, fsModified, Library.close,
            hpkg, hdp, htmp, hmk, hcf, hfile, hcond, hopen, hdt]
  · intro hm ht
    have hcond : (c.macos && !os.toolSpawns) = true := by simp [hm, ht]
    constructor
    · simp [force_reload, create_dir_all, fsCopy, hpkg, hdp, htmp, hmk, hcf, hfile, hcond]
    · intro hq pq
      simp [force_reload, create_dir_all, fsCopy, hpkg, hdp, htmp, hmk, hcf, hfile, hcond]

lemma charVal_digitChar (m : Nat) (h : m < 10) : charVal (Nat.digitChar m) = m := by
  interval_cases m <;> rfl

lemma toDigitsCore_acc (fuel n : Nat) (ds : List Char) :
    Nat.toDigitsCore 10 fuel n ds = Nat.toDigitsCore 10 fuel n [] ++ ds := by
  induction fuel generalizing n ds with
  | zero => rfl
  | succ fuel ih =>
    simp only [Nat.toDigitsCore]
    by_cases h : n / 10 = 0
    · simp [h]
    · simp only [h, if_false]
      rw [ih (n / 10) ([Nat.digitChar (n % 10)]), ih (n / 10) (Nat.digitChar (n % 10) :: ds)]
      simp

lemma decVal_toDigitsCore (fuel : Nat) : ∀ n, n < fuel →
    decVal (Nat.toDigitsCore 10 fuel n []) = n := by
  induction fuel with
  | zero => intro n h; omega
  | succ fuel ih =>
    intro n h
    simp only [Nat.toDigitsCore]
    by_cases h0 : n / 10 = 0
    · simp only [h0, if_true]
      have hn : n < 10 := by omega
      have hmod : n % 10 = n := Nat.mod_eq_of_lt hn
      simp only [decVal, List.foldl, hmod, charVal_digitChar n hn]
      omega
    · simp only [h0, if_false]
      rw [toDigitsCore_acc]
      have hlt : n / 10 < fuel := by
        have := Nat.div_lt_self (by omega : 0 < n) (by omega : 1 < 10)
        omega
      have hrec := ih (n / 10) hlt
      simp only [decVal] at hrec ⊢
      rw [List.foldl_append]
      rw [hrec]
      simp [charVal_digitChar (n % 10) (by omega)]
      omega

lemma nat_repr_injective : Function.Injective Nat.repr := by
  intro m n h
  have hd : Nat.toDigits 10 m = Nat.toDigits 10 n := congrArg String.data h
  have hm := decVal_toDigitsCore (m + 1) m (by omega)
  have hn := decVal_toDigitsCore (n + 1) n (by omega)
  simp only [Nat.toDigits] at hd
  rw [hd] at hm
  rw [hm] at hn
  omega

lemma string_data_injective (s t : String) (h : s.data = t.data) : s = t := by
  cases s; cases t; simp only at h; rw [h]

/-- Two path strings that sandwich different decimal counters between the same
prefix and the same suffix are distinct. -/
lemma repr_mid_inj (pre q e : String) (a b : Nat)
    (h : pre ++ Nat.repr a ++ q ++ e = pre ++ Nat.repr b ++ q ++ e) : a = b := by
  have hd := congrArg String.data h
  simp only [String.data_append, List.append_assoc] at hd
  have h1 := List.append_cancel_left hd
  have h2 : (Nat.repr a).data = (Nat.repr b).data := by
    have h3 : (Nat.repr a).data ++ (q.data ++ e.data)
        = (Nat.repr b).data ++ (q.data ++ e.data) := by
      simpa [List.append_assoc] using h1
    exact List.append_cancel_right h3
  exact nat_repr_injective (string_data_injective _ _ h2)

lemma try_reload_not_stale (c : Cfg) (s : HotCrate) (os : Os)
    (h : fsModified s.lib_path os = .ok s.lib_timestamp) :
    try_reload c s os = ⟨.ok false, s, os, []⟩ := by
  unfold try_reload
  rw [h]
  simp

lemma try_reload_iter_not_stale (c : Cfg) (s : HotCrate) (os : Os)
    (h : fsModified s.lib_path os = .ok s.lib_timestamp) :
    ∀ n, try_reload_iter c n s os = (List.replicate n (.ok false), s, os, []) := by
  intro n
  induction n with
  | zero => rfl
  | succ n ih =>
    unfold try_reload_iter
    rw [try_reload_not_stale c s os h]
    dsimp only
    rw [ih]
    simp [List.replicate_succ]

lemma force_reload_panic_state (c : Cfg) (s : HotCrate) (os : Os)
    (res : Outcome Unit) (hc : HotCrate) (os2 : Os) (tr : List Ev) (m : String)
    (hfr : force_reload c s os = ⟨res, hc, os2, tr⟩) (h : res = .panic m) :
    ∀ hq, Ev.close hq ∉ tr := by
  unfold force_reload at hfr
  split at hfr
  next e1 heq1 => cases hfr; simp at h
  next pkg hpkg =>
  split at hfr
  next e1 heq1 => cases hfr; simp at h
  next dp hdp =>
  split at hfr
  next e1 heq1 => cases hfr; simp at h
  next tmp s1 htmp =>
  dsimp only at hfr
  split at hfr
  next e1 t1 hmk =>
    cases hfr
    unfold create_dir_all at hmk
    split at hmk
    · simp at hmk
    · simp only [Prod.mk.injEq] at hmk
      obtain ⟨_, ht1⟩ := hmk
      simp [← ht1]
  next u t1 hmk =>
  have ht1 : t1 = [Ev.mkdir (parentDir tmp)] := by
    unfold create_dir_all at hmk
    split at hmk
    · simp only [Prod.mk.injEq] at hmk; exact hmk.2.symm
    · simp at hmk
  subst ht1
  split at hfr
  next e1 os2a t2 hcp =>
    cases hfr
    unfold fsCopy at hcp
    split at hcp
    · simp only [Prod.mk.injEq] at hcp
      obtain ⟨_, _, ht2⟩ := hcp
      simp [← ht2]
    · split at hcp
      · simp only [Prod.mk.injEq] at hcp
        obtain ⟨_, _, ht2⟩ := hcp
        simp [← ht2]
      · simp at hcp
  next u2 os2a t2 hcp =>
  have ht2 : t2 = [Ev.copy dp tmp] := by
    unfold fsCopy at hcp
    split at hcp
    · simp at hcp
    · split at hcp
      · simp at hcp
      · simp only [Prod.mk.injEq] at hcp
        exact hcp.2.2.symm
  subst ht2
  split at hfr
  · cases hfr
    intro hq
    simp
  try dsimp only at hfr
  split at hfr
  next e1 os3 t4 hnew => cases hfr; simp at h
  next hnd os3 t4 hnew =>
  try dsimp only at hfr
  split at hfr
  next e1 hstat => cases hfr; simp at h
  next ts hstat => cases hfr; simp at h

lemma dash_zero_dot (pre e : String) :
    pre ++ ("-") ++ Nat.repr 0 ++ (".") ++ e = pre ++ ("-0.") ++ e := by
  apply string_data_injective
  simp only [String.data_append, List.append_assoc]
  rfl

/-- C1: no two executed reloads of one manager reuse a staging path: each
staging-path computation produces a file stem ending in the current reload
counter, successive computations yield distinct paths, and after the first
committed reload the counter is 1 while the path of the staged copy ends in
-0.<ext>. -/
theorem c1_staging_paths_never_reused (c : Cfg) (s : HotCrate) (os : Os) :
    (∀ p s1, tmp_dylib_path c s os = .ok (p, s1) →
      (∃ pre, p = pre ++ ("-") ++ Nat.repr s.reload_counter ++ (".") ++ c.ext) ∧
      s1.reload_counter = s.reload_counter + 1) ∧
    (∀ p1 s1 p2 s2, tmp_dylib_path c s os = .ok (p1, s1) →
      tmp_dylib_path c s1 os = .ok (p2, s2) → p1 ≠ p2) ∧
    (s.reload_counter = 0 → (force_reload c s os).res = .ok () →
      (force_reload c s os).hc.reload_counter = 1 ∧
      ∃ src pre, Ev.copy src (pre ++ ("-0.") ++ c.ext) ∈ (force_reload c s os).tr) := by
  refine ⟨?_, ?_, ?_⟩
  · intro p s1 htmp
    obtain ⟨pkg, tgt, tmpRoot, _, _, _, hshape, hs1⟩ := tmp_spec c s os p s1 htmp
    subst hs1
    exact ⟨⟨tmpRoot ++ ("/hot_crate/") ++ pkg.name ++ ("/lib") ++ tgt.name, hshape⟩, rfl⟩
  · intro p1 s1 p2 s2 h1 h2 heq
    obtain ⟨pkg, tgt, tmpRoot, hpkg, htgt, hroot, hshape1, hs1⟩ := tmp_spec c s os p1 s1 h1
    subst hs1
    obtain ⟨pkg2, tgt2, tmpRoot2, hpkg2, htgt2, hroot2, hshape2, _⟩ :=
      tmp_spec c { s with reload_counter := s.reload_counter + 1 } os p2 s2 h2
    dsimp only at hpkg2 htgt2 hshape2
    rw [hpkg] at hpkg2
    rw [htgt] at htgt2
    rw [hroot] at hroot2
    have hep : pkg2 = pkg := by simpa using hpkg2.symm
    have het : tgt2 = tgt := by simpa using htgt2.symm
    have her : tmpRoot2 = tmpRoot := by simpa using hroot2.symm
    rw [hep, het, her] at hshape2
    rw [hshape1, hshape2] at heq
    have hcnt := repr_mid_inj
      (tmpRoot ++ ("/hot_crate/") ++ pkg.name ++ ("/lib") ++ tgt.name ++ ("-"))
      (".") c.ext s.reload_counter (s.reload_counter + 1) heq
    omega
  · intro h0 hok
    obtain ⟨dp, p, fArt, hdp, htmp, hfile, hhc, hoh, htr⟩ :=
      force_reload_ok_state c s os (force_reload c s os).res (force_reload c s os).hc
        (force_reload c s os).os (force_reload c s os).tr rfl hok
    obtain ⟨pkg, tgt, tmpRoot, _, _, _, hshape, _⟩ :=
      tmp_spec c s os p { s with reload_counter := s.reload_counter + 1 } htmp
    constructor
    · rw [hhc]
      simp [h0]
    · refine ⟨dp, tmpRoot ++ ("/hot_crate/") ++ pkg.name ++ ("/lib") ++ tgt.name, ?_⟩
      have hp : p = (tmpRoot ++ ("/hot_crate/") ++ pkg.name ++ ("/lib") ++ tgt.name)
          ++ ("-0.") ++ c.ext := by
        rw [hshape, h0]
        exact dash_zero_dot _ _
      rw [htr, ← hp]
      simp

/-- C1 witness: on the concrete fixture the first two staging paths differ. -/
theorem c1_witness :
    ("TMP/hot_crate/plug/libplug-0.dylib" : String) ≠ ("TMP/hot_crate/plug/libplug-1.dylib") :=
  (c1_staging_paths_never_reused cW sW osW).2.1
    ("TMP/hot_crate/plug/libplug-0.dylib") { sW with reload_counter := 1 }
    ("TMP/hot_crate/plug/libplug-1.dylib") { sW with reload_counter := 2 }
    (by decide) (by decide)

/-- C2: a force_reload that fails with an error leaves the active handle
identical, the OS handle table untouched, and symbol lookup unchanged; the
error is returned to the caller. -/
theorem c2_failed_reload_preserves_handle (c : Cfg) (s : HotCrate) (os : Os) (e : Err)
    (h : (force_reload c s os).res = .err e) :
    (force_reload c s os).hc.lib = s.lib ∧
    (force_reload c s os).os.openHandles = os.openHandles ∧
    (∀ symbol, HotCrate.get (force_reload c s os).hc (force_reload c s os).os symbol
       = HotCrate.get s os symbol) := by
  obtain ⟨h1, h2, h3, h4, h5, h6⟩ :=
    force_reload_err_state c s os e (force_reload c s os).res (force_reload c s os).hc
      (force_reload c s os).os (force_reload c s os).tr rfl h
  refine ⟨h1, h4, ?_⟩
  intro symbol
  unfold HotCrate.get
  rw [h1, h4]

/-- C2 witness: with the artifact file gone the copy step fails, the reload
errors, handle 0 stays active and its symbol still resolves. -/
theorem c2_witness :
    (force_reload cW sW osFail).res = .err .ioError ∧
    (force_reload cW sW osFail).hc.lib = sW.lib ∧
    HotCrate.get sW osFail ("sym") = .ok () ∧
    HotCrate.get (force_reload cW sW osFail).hc (force_reload cW sW osFail).os ("sym")
      = .ok () := by
  have h : (force_reload cW sW osFail).res = .err .ioError := by decide
  obtain ⟨h1, h2, h3⟩ := c2_failed_reload_preserves_handle cW sW osFail .ioError h
  exact ⟨h, h1, by decide, by rw [h3]; decide⟩

/-- C3 counterexample: a reload attempt aborted by a staging-copy failure
(artifact file missing) still advances the reload counter from 0 to 1, refuting
the claim that the counter increments only upon reaching the committed state. -/
theorem c3_counterexample :
    sW.reload_counter = 0 ∧
    (force_reload cW sW osFail).res = .err .ioError ∧
    (force_reload cW sW osFail).hc.reload_counter = 1 := by
  refine ⟨rfl, by decide, by decide⟩

/-- C3 (amended): the counter increases by exactly one per committed reload,
but it is taken at the staging-path computation: any attempt that reaches that
computation advances it by one even if the copy or the open then fails; only
attempts failing before the staging-path computation, and short-circuited
(not stale) try_reload calls, leave it unchanged. -/
theorem c3_counter_per_staging_attempt (c : Cfg) (s : HotCrate) (os : Os) :
    ((force_reload c s os).res = .ok () →
      (force_reload c s os).hc.reload_counter = s.reload_counter + 1) ∧
    (∀ p s1, tmp_dylib_path c s os = .ok (p, s1) →
      (force_reload c s os).hc.reload_counter = s.reload_counter + 1) ∧
    ((∃ e, tmp_dylib_path c s os = .error e) →
      (force_reload c s os).hc = s ∧ ∃ e, (force_reload c s os).res = .err e) ∧
    (fsModified s.lib_path os = .ok s.lib_timestamp →
      (try_reload c s os).res = .ok false ∧
      (try_reload c s os).hc.reload_counter = s.reload_counter) := by
  have hmaster := force_reload_counter_state c s os (force_reload c s os).res
    (force_reload c s os).hc (force_reload c s os).os (force_reload c s os).tr rfl
  refine ⟨?_, hmaster.2, hmaster.1, ?_⟩
  · intro hok
    obtain ⟨dp, p, fArt, _, htmp, _⟩ :=
      force_reload_ok_state c s os (force_reload c s os).res (force_reload c s os).hc
        (force_reload c s os).os (force_reload c s os).tr rfl hok
    exact hmaster.2 _ _ htmp
  · intro hns
    rw [try_reload_not_stale c s os hns]
    exact ⟨rfl, rfl⟩

/-- C3 witness: the aborted staging attempt advances the counter; a not-stale
try_reload returns false and keeps the counter. -/
theorem c3_witness :
    (force_reload cW sW osFail).hc.reload_counter = sW.reload_counter + 1 ∧
    (try_reload cW sW osW).res = .ok false := by
  refine ⟨(c3_counter_per_staging_attempt cW sW osFail).2.1
    ("TMP/hot_crate/plug/libplug-0.dylib") { sW with reload_counter := 1 } (by decide),
    ((c3_counter_per_staging_attempt cW sW osW).2.2.2 (by decide)).1⟩

/-- C4 counterexample: on macOS a failure to spawn install_name_tool panics,
aborting the reload before the staged copy is ever opened, refuting the claim
that a spawn failure does not abort the reload. -/
theorem c4_counterexample :
    (force_reload cM sW osNoSpawn).res = .panic ("install_name_tool failed to start") ∧
    (force_reload cM sW osNoSpawn).tr =
      [Ev.mkdir ("TMP/hot_crate/plug"), Ev.copy artW ("TMP/hot_crate/plug/libplug-0.dylib")] := by
  refine ⟨by decide, by decide⟩

/-- C4 (amended): on macOS the exit status of install_name_tool is ignored — a
non-zero exit does not abort the reload, which proceeds to open the staged copy
and commits; but a failure to spawn the subprocess panics, so the reload (and
process) aborts and the staged copy is never opened. -/
theorem c4_tool_exit_ignored_spawn_panics (c : Cfg) (s : HotCrate) (os : Os)
    (p dp : String) (s1 : HotCrate) (fArt : File)
    (hmac : c.macos = true)
    (htmp : tmp_dylib_path c s os = .ok (p, s1))
    (hdp : find_dylib_path c s.main_metadata s.dylib_toml os = .ok dp)
    (hmk : os.mkdirOk (parentDir p) = true)
    (hcf : os.copyFails dp p = false)
    (hfile : os.files dp = some fArt)
    (hopen : fArt.openable = true) :
    (os.toolSpawns = true → os.toolExit ≠ 0 → (force_reload c s os).res = .ok ()) ∧
    (os.toolSpawns = false →
      (force_reload c s os).res = .panic ("install_name_tool failed to start") ∧
      ∀ hq pq, Ev.openOk hq pq ∉ (force_reload c s os).tr) := by
  have h := force_reload_path_outcome c s os p dp s1 fArt htmp hdp hmk hcf hfile hopen
  exact ⟨fun hs _ => h.1 (Or.inr hs), fun hns => h.2 hmac hns⟩

/-- C4 witness: on the macOS fixture with exit status 3 the reload commits. -/
theorem c4_witness :
    (force_reload cM sW osW).res = .ok () :=
  (c4_tool_exit_ignored_spawn_panics cM sW osW
    ("TMP/hot_crate/plug/libplug-0.dylib") artW { sW with reload_counter := 1 } fileW
    rfl (by decide) (by decide) (by decide) (by decide) (by decide) (by decide)).1
    (by decide) (by decide)

/-- C5: as long as the freshly read artifact timestamp equals the stored
baseline, any number of try_reload calls all return false, perform no
filesystem effects, and leave the manager state (reload counter included)
unchanged. -/
theorem c5_unchanged_timestamp_never_reloads (c : Cfg) (s : HotCrate) (os : Os)
    (h : fsModified s.lib_path os = .ok s.lib_timestamp) (n : Nat) :
    try_reload_iter c n s os = (List.replicate n (.ok false), s, os, []) :=
  try_reload_iter_not_stale c s os h n

/-- C5 witness: three consecutive polls on the concrete fixture. -/
theorem c5_witness :
    fsModified sW.lib_path osW = .ok sW.lib_timestamp ∧
    try_reload_iter cW 3 sW osW = (List.replicate 3 (.ok false), sW, osW, []) :=
  ⟨by decide, c5_unchanged_timestamp_never_reloads cW sW osW (by decide) 3⟩

/-- C6: whenever a reload closes a handle, it is the previous active handle,
the reload committed, and in the effect trace the close is the final event,
immediately preceded by the successful open of the staged copy that became the
new active handle; no other close occurs. -/
theorem c6_close_only_after_new_open (c : Cfg) (s : HotCrate) (os : Os) (hh : Nat)
    (hmem : Ev.close hh ∈ (force_reload c s os).tr) :
    hh = s.lib ∧ (force_reload c s os).res = .ok () ∧
    ∃ p pre,
      (force_reload c s os).tr
        = pre ++ [Ev.openOk (force_reload c s os).hc.lib p, Ev.close s.lib] ∧
      (∀ hq, Ev.close hq ∉ pre) := by
  rcases hres : (force_reload c s os).res with u | e | m
  · cases u
    obtain ⟨dp, p, fArt, hdp, htmp, hfile, hhc, hoh, htr⟩ :=
      force_reload_ok_state c s os (force_reload c s os).res (force_reload c s os).hc
        (force_reload c s os).os (force_reload c s os).tr rfl hres
    refine ⟨?_, rfl, p,
      [Ev.mkdir (parentDir p)] ++ [Ev.copy dp p] ++ (if c.macos = true then [Ev.tool p] else []),
      ?_, ?_⟩
    · rw [htr] at hmem
      by_cases hm : c.macos = true <;> simp [hm] at hmem <;> exact hmem
    · rw [htr, hhc]
      simp [List.append_assoc]
    · intro hq
      by_cases hm : c.macos = true <;> simp [hm]
  · exfalso
    obtain ⟨_, _, _, _, h5, _⟩ :=
      force_reload_err_state c s os e (force_reload c s os).res (force_reload c s os).hc
        (force_reload c s os).os (force_reload c s os).tr rfl hres
    exact h5 hh hmem
  · exfalso
    exact force_reload_panic_state c s os (force_reload c s os).res (force_reload c s os).hc
      (force_reload c s os).os (force_reload c s os).tr m rfl hres hh hmem

/-- C6 witness: on the concrete committed reload the only closed handle is the
old one and the close follows the open of the staged copy. -/
theorem c6_witness :
    (0 : Nat) = sW.lib ∧ (force_reload cW sW osW).res = .ok () ∧
    ∃ p pre,
      (force_reload cW sW osW).tr
        = pre ++ [Ev.openOk (force_reload cW sW osW).hc.lib p, Ev.close sW.lib] ∧
      (∀ hq, Ev.close hq ∉ pre) :=
  c6_close_only_after_new_open cW sW osW 0 (by decide)

/-- C7: load fails atomically: when no package matches the canonicalized
manifest path it fails with the target-not-found error; when the matching
package has no dylib target it fails with the no-dynamic-library error;
in both cases no manager is produced and no filesystem effect happens. -/
theorem c7_load_fails_atomically (c : Cfg) (main_toml dylib_toml : String) (os : Os)
    (md : Metadata) (ct : String)
    (hmd : os.cargoMetadata main_toml = some md)
    (hct : os.canonical dylib_toml = some ct) :
    (md.packages.find? (fun pkg => pkg.manifest_path == ct) = none →
      (load c main_toml dylib_toml os).res = .error .targetNotFound ∧
      (load c main_toml dylib_toml os).tr = []) ∧
    (∀ pkg, md.packages.find? (fun pkg2 => pkg2.manifest_path == ct) = some pkg →
      pkg.targets.find? (fun t => t.crate_types.any (fun ty => ty == "dylib")) = none →
      (load c main_toml dylib_toml os).res = .error .notADynamicLibrary ∧
      (load c main_toml dylib_toml os).tr = []) := by
  constructor
  · intro hfind
    have hpath : find_dylib_path c md dylib_toml os = .error .targetNotFound := by
      simp [find_dylib_path, find_dylib_target, find_dylib_pkg, hct, hfind]
    constructor <;> simp [load, hmd, hpath]
  · intro pkg hfind htgt
    have hpath : find_dylib_path c md dylib_toml os = .error .notADynamicLibrary := by
      simp [find_dylib_path, find_dylib_target, find_dylib_pkg, hct, hfind, htgt]
    constructor <;> simp [load, hmd, hpath]

/-- C7 witness: both failure modes on concrete fixtures. -/
theorem c7_witness :
    ((load cW ("M") ("X") osW).res = .error .targetNotFound ∧
      (load cW ("M") ("X") osW).tr = []) ∧
    ((load cW ("M") ("Q") osND).res = .error .notADynamicLibrary ∧
      (load cW ("M") ("Q") osND).tr = []) :=
  ⟨(c7_load_fails_atomically cW ("M") ("X") osW mdW ("X") (by decide) (by decide)).1
      (by decide),
   (c7_load_fails_atomically cW ("M") ("Q") osND mdND ("Q") (by decide) (by decide)).2
      pkgND (by decide) (by decide)⟩

/-- C8: the cfg selection of the DYLIB_EXTENSION constant and the resolved
artifact path on the fixture: macOS and Linux follow the documented convention,
but the Windows constant is attached to the misspelled target OS string
"window", so real Windows ("windows") — like every other unrecognized
platform — gets no extension at all (the crate does not compile there) and no
sentinel value exists. -/
theorem c8_extension_selection_windows_typo :
    DYLIB_EXTENSION ("macos") = some ("dylib") ∧
    DYLIB_EXTENSION ("linux") = some ("so") ∧
    DYLIB_EXTENSION ("window") = some ("dll") ∧
    DYLIB_EXTENSION ("windows") = none ∧
    DYLIB_EXTENSION ("freebsd") = none ∧
    find_dylib_path cW mdW ("P") osW = .ok ("T/debug/libplug.dylib") := by
  refine ⟨rfl, rfl, rfl, rfl, rfl, by decide⟩

/-- C9: after a committed reload the stored library path of the manager is the
freshly resolved artifact path, while the new active handle was opened from the
staging path computed by this reload; subsequent staleness checks therefore
stat the artifact while symbols are served from the staged copy. -/
theorem c9_artifact_path_stored_staged_copy_served (c : Cfg) (s : HotCrate) (os : Os)
    (hnh : s.lib ≠ os.nextHandle)
    (hok : (force_reload c s os).res = .ok ()) :
    ∃ dp p : String, ∃ fArt : File,
      find_dylib_path c s.main_metadata s.dylib_toml os = .ok dp ∧
      tmp_dylib_path c s os = .ok (p, { s with reload_counter := s.reload_counter + 1 }) ∧
      (force_reload c s os).hc.lib_path = dp ∧
      (force_reload c s os).os.openHandles.find?
          (fun x => x.id == (force_reload c s os).hc.lib) =
        some { id := os.nextHandle, path := p, symbols := fArt.symbols } := by
  obtain ⟨dp, p, fArt, hdp, htmp, hfile, hhc, hoh, htr⟩ :=
    force_reload_ok_state c s os (force_reload c s os).res (force_reload c s os).hc
      (force_reload c s os).os (force_reload c s os).tr rfl hok
  refine ⟨dp, p, fArt, hdp, htmp, ?_, ?_⟩
  · rw [hhc]
  · rw [hoh, hhc]
    have hne : (os.nextHandle != s.lib) = true := by
      simp [bne]
      exact fun hx => hnh hx.symm
    simp only [List.filter_cons, hne, if_true]
    simp [List.find?_cons]

/-- C9 witness: the committed reload on the fixture stores the artifact path
and serves handle 1 opened from the staging path. -/
theorem c9_witness :
    ∃ dp p : String, ∃ fArt : File,
      find_dylib_path cW sW.main_metadata sW.dylib_toml osW = .ok dp ∧
      tmp_dylib_path cW sW osW = .ok (p, { sW with reload_counter := sW.reload_counter + 1 }) ∧
      (force_reload cW sW osW).hc.lib_path = dp ∧
      (force_reload cW sW osW).os.openHandles.find?
          (fun x => x.id == (force_reload cW sW osW).hc.lib) =
        some { id := osW.nextHandle, path := p, symbols := fArt.symbols } :=
  c9_artifact_path_stored_staged_copy_served cW sW osW (by decide) (by decide)

/-- C10: an unavailable modification time is not an error: load records a
baseline of none when the artifact mtime is unavailable, a try_reload whose
fresh read is also none compares equal and returns false without error, and
only an unreadable file metadata makes try_reload fail. -/
theorem c10_unavailable_mtime_not_an_error (c : Cfg) (os : Os) :
    (∀ main_toml dylib_toml : String, ∀ md : Metadata, ∀ lp : String, ∀ f : File,
      os.cargoMetadata main_toml = some md →
      find_dylib_path c md dylib_toml os = .ok lp →
      os.files lp = some f → f.openable = true → f.modified = none →
      ∃ m, (load c main_toml dylib_toml os).res = .ok m ∧ m.lib_timestamp = none) ∧
    (∀ s : HotCrate, ∀ f : File,
      os.files s.lib_path = some f → f.modified = none → s.lib_timestamp = none →
      try_reload c s os = ⟨.ok false, s, os, []⟩) ∧
    (∀ s : HotCrate, os.files s.lib_path = none →
      (try_reload c s os).res = .err .ioError) := by
  refine ⟨?_, ?_, ?_⟩
  · intro main_toml dylib_toml md lp f hmd hdp hf hopen hnone
    simp [load, hmd, hdp, Library.new, hf, hopen, fsModified, hnone]
  · intro s f hf hnone hbase
    apply try_reload_not_stale
    unfold fsModified
    rw [hf]
    dsimp only
    rw [hnone, hbase]
  · intro s hf
    unfold try_reload fsModified
    rw [hf]

/-- C10 witness: the three behaviours on concrete fixtures. -/
theorem c10_witness :
    (∃ m, (load cW ("M") ("P") osN).res = .ok m ∧ m.lib_timestamp = none) ∧
    try_reload cW sN osN = ⟨.ok false, sN, osN, []⟩ ∧
    (try_reload cW sBad osN).res = .err .ioError :=
  ⟨(c10_unavailable_mtime_not_an_error cW osN).1 ("M") ("P") mdW artW fileN
      (by decide) (by decide) (by decide) (by decide) (by decide),
   (c10_unavailable_mtime_not_an_error cW osN).2.1 sN fileN
      (by decide) (by decide) (by decide),
   (c10_unavailable_mtime_not_an_error cW osN).2.2 sBad (by decide)⟩
